import Mathlib

/-!
Shallow embedding of `main.go` from the gcp-monitoring-resource-weirdness
repository: a linear command-line tool that registers a custom metric
descriptor, writes one distribution-valued time-series point against a chosen
monitored-resource kind, sleeps, shells out to read audit logs, and re-fetches
the descriptor.

The embedding models each protobuf payload as a structure, the external world
(RPC outcomes, the subprocess, the clock) as an `Env` oracle, and each step of
the program as a pure function returning the list of observable events it
performs together with its Go return value (`Except` for `(T, error)`).
Go `float64` fields only ever hold small integral literals here, so they are
modelled as `Rat`; timestamps are opaque `Nat` instants.
-/

namespace GcpMon

/-- Metric kinds of the metric descriptor protobuf (`metricpb.MetricDescriptor_*`). -/
inductive MetricKind
  | unspecified
  | gauge
  | delta
  | cumulative
deriving DecidableEq, Repr

/-- Value types of the metric descriptor protobuf. -/
inductive MetricValueType
  | unspecified
  | bool
  | int64
  | double
  | string
  | distribution
  | money
deriving DecidableEq, Repr

/-- Label value types (`label.LabelDescriptor_*`). -/
inductive LabelValueType
  | string
  | bool
  | int64
deriving DecidableEq, Repr

/-- One entry of a descriptor label schema (`label.LabelDescriptor`). -/
structure LabelDescriptor where
  key : String
  valueType : LabelValueType
  description : String
deriving DecidableEq, Repr

/-- A metric descriptor (`metricpb.MetricDescriptor`), restricted to the fields
the program sets or reads. -/
structure MetricDescriptor where
  name : String
  type : String
  labels : List LabelDescriptor
  metricKind : MetricKind
  valueType : MetricValueType
  unit : String
  description : String
  displayName : String
  monitoredResourceTypes : List String
deriving DecidableEq, Repr

/-- Request payload of the create-metric-descriptor RPC. -/
structure CreateMetricDescriptorRequest where
  name : String
  metricDescriptor : MetricDescriptor
deriving DecidableEq, Repr

/-- Request payload of the get-metric-descriptor RPC. -/
structure GetMetricDescriptorRequest where
  name : String
deriving DecidableEq, Repr

/-- A distribution value (`distribution.Distribution`) with explicit bucket
boundaries; `range` is always left unset by the program so it is omitted. -/
structure Distribution where
  count : Int
  mean : Rat
  sumOfSquaredDeviation : Rat
  bounds : List Rat
  bucketCounts : List Int
deriving DecidableEq, Repr

/-- A time interval; both endpoints are opaque instants. -/
structure TimeInterval where
  startTime : Nat
  endTime : Nat
deriving DecidableEq, Repr

/-- The typed value of a point; the program only ever builds distribution values. -/
inductive TypedValue
  | distributionValue (d : Distribution)
deriving DecidableEq, Repr

/-- One time-series point (`monitoringpb.Point`). -/
structure Point where
  interval : TimeInterval
  value : TypedValue
deriving DecidableEq, Repr

/-- The distribution payload of a point. -/
def Point.distValue : Point → Distribution
  | ⟨_, .distributionValue d⟩ => d

/-- A metric reference on a time series (`metricpb.Metric`). -/
structure Metric where
  type : String
  labels : List (String × String)
deriving DecidableEq, Repr

/-- A monitored resource (`monitoredres.MonitoredResource`). -/
structure MonitoredResource where
  type : String
  labels : List (String × String)
deriving DecidableEq, Repr

/-- A time series (`monitoringpb.TimeSeries`); `resource = none` models the
nil `Resource` field. -/
structure TimeSeries where
  metric : Metric
  resource : Option MonitoredResource
  metricKind : MetricKind
  valueType : MetricValueType
  points : List Point
  unit : String
deriving DecidableEq, Repr

/-- Request payload of the create-time-series RPC. -/
structure CreateTimeSeriesRequest where
  name : String
  timeSeries : List TimeSeries
deriving DecidableEq, Repr

/-- Observable events of a run, in program order: client construction, the
three RPCs, the diagnostic prints, the sleep, and the gcloud subprocess.
Print events carry the printed value rather than its prototext rendering;
`printDescriptor none` is the print of a nil descriptor. -/
inductive Event
  | newMetricClient
  | createMetricDescriptorRPC (req : CreateMetricDescriptorRequest)
  | printDescriptor (d : Option MetricDescriptor)
  | printSeries (s : TimeSeries)
  | createTimeSeriesRPC (req : CreateTimeSeriesRequest)
  | printAuditHeader
  | sleepSeconds (n : Nat)
  | runGcloud (filter : String) (limit : Nat)
  | getMetricDescriptorRPC (req : GetMetricDescriptorRequest)
  | logError (msg : String)
deriving DecidableEq, Repr

def Event.isCreateDescRPC : Event → Bool
  | .createMetricDescriptorRPC _ => true
  | _ => false

def Event.isCreateTSRPC : Event → Bool
  | .createTimeSeriesRPC _ => true
  | _ => false

def Event.isGetDescRPC : Event → Bool
  | .getMetricDescriptorRPC _ => true
  | _ => false

/-- Whether the event is one of the three monitoring RPCs or client creation
against the backend. -/
def Event.isNetwork (e : Event) : Bool :=
  e.isCreateDescRPC || e.isCreateTSRPC || e.isGetDescRPC || e == .newMetricClient

def Event.isSleep : Event → Bool
  | .sleepSeconds _ => true
  | _ => false

def Event.isGcloud : Event → Bool
  | .runGcloud _ _ => true
  | _ => false

def Event.isPrintDescriptor : Event → Bool
  | .printDescriptor _ => true
  | _ => false

/-- Environment oracle: the outcome the external world gives each effectful
step of the run, plus the current instant read by `timestamppb.Now()`. -/
structure Env where
  newClientResult : Except String Unit
  createDescriptorResult : Except String MetricDescriptor
  createTimeSeriesResult : Except String Unit
  gcloudResult : Except String Unit
  getDescriptorResult : Except String MetricDescriptor
  now : Nat

/-- The `metricType` constant of `main.go`. -/
def metricType : String := "custom.googleapis.com/test/histogram"

/-- The metric descriptor built by `createHistogramDescriptor`. -/
def histogramDescriptor (projectID : String) : MetricDescriptor :=
  { name := "projects/" ++ projectID ++ "/metricDescriptors/" ++ metricType
  , type := metricType
  , labels := [{ key := "key_a", valueType := .string, description := "some key a" }]
  , metricKind := .gauge
  , valueType := .distribution
  , unit := "ms"
  , description := "test histogram"
  , displayName := "Test Histogram Display name"
  , monitoredResourceTypes := ["generic_task", "k8s_container"] }

/-- The create-metric-descriptor request built by `createHistogramDescriptor`. -/
def createMetricDescriptorReq (projectID : String) : CreateMetricDescriptorRequest :=
  { name := "projects/" ++ projectID
  , metricDescriptor := histogramDescriptor projectID }

/-- Embedding of `createHistogramDescriptor`: issue the create RPC; on error
return the wrapped error, otherwise print the returned descriptor and return it. -/
def createHistogramDescriptor (projectID : String) (env : Env) :
    List Event × Except String MetricDescriptor :=
  match env.createDescriptorResult with
  | .error e =>
      ([.createMetricDescriptorRPC (createMetricDescriptorReq projectID)],
       .error ("create metric descriptor: " ++ e))
  | .ok d =>
      ([.createMetricDescriptorRPC (createMetricDescriptorReq projectID),
        .printDescriptor (some d)],
       .ok d)

/-- Embedding of `newHistogramPoint`: one gauge point at instant `now` holding
the fixed demonstration distribution. -/
def newHistogramPoint (now : Nat) : Point :=
  { interval := { startTime := now, endTime := now }
  , value := .distributionValue
      { count := 2
      , mean := 30
      , sumOfSquaredDeviation := 15
      , bounds := [10, 50, 70]
      , bucketCounts := [0, 1, 1, 0] } }

/-- The time series as first constructed in `createHistogramTimeSeries`,
before the monitored-resource switch assigns `Resource`. -/
def baseHistogramSeries (now : Nat) : TimeSeries :=
  { metric := { type := metricType, labels := [("key_a", "value-a")] }
  , resource := none
  , metricKind := .gauge
  , valueType := .distribution
  , points := [newHistogramPoint now]
  , unit := "ms" }

/-- The `generic_task` monitored resource of the switch in
`createHistogramTimeSeries`. -/
def genericTaskResource (projectID : String) : MonitoredResource :=
  { type := "generic_task"
  , labels :=
      [("project_id", projectID), ("location", "us-central1"),
       ("namespace", "test"), ("job", "test-job"), ("task_id", "test-task")] }

/-- The `k8s_container` monitored resource of the switch in
`createHistogramTimeSeries`. -/
def k8sContainerResource (projectID : String) : MonitoredResource :=
  { type := "k8s_container"
  , labels :=
      [("project_id", projectID), ("location", "us-central1"),
       ("cluster_name", "test-cluster"), ("namespace_name", "test-namespace"),
       ("pod_name", "test-pod"), ("container_name", "test-container")] }

/-- The monitored-resource switch of `createHistogramTimeSeries`: maps the
flag token to the resource assigned to the series (in switch-case order), or
the unknown-resource error. -/
def monitoredResourceFor (token projectID : String) :
    Except String (Option MonitoredResource) :=
  if token = "generic_task" then .ok (some (genericTaskResource projectID))
  else if token = "k8s_container" then .ok (some (k8sContainerResource projectID))
  else if token = "none" then .ok none
  else .error ("unknown monitored resource: " ++ token)

/-- Embedding of `createHistogramTimeSeries`: build the series, run the
resource switch (failing fast on an unknown token, before any print or RPC),
print the series, then issue the single-series create-time-series RPC. -/
def createHistogramTimeSeries (projectID token : String) (env : Env) :
    List Event × Except String TimeSeries :=
  match monitoredResourceFor token projectID with
  | .error e => ([], .error e)
  | .ok r =>
      let series : TimeSeries := { baseHistogramSeries env.now with resource := r }
      let req : CreateTimeSeriesRequest :=
        { name := "projects/" ++ projectID, timeSeries := [series] }
      match env.createTimeSeriesResult with
      | .error e =>
          ([.printSeries series, .createTimeSeriesRPC req],
           .error ("create time series: " ++ e))
      | .ok _ =>
          ([.printSeries series, .createTimeSeriesRPC req], .ok series)

/-- Embedding of `getMetricDescriptor`: issue the get RPC by the descriptor's
name, print the result unconditionally (a nil descriptor prints as empty when
the RPC failed), then return the RPC outcome unchanged. -/
def getMetricDescriptor (env : Env) (desc : MetricDescriptor) :
    List Event × Except String MetricDescriptor :=
  match env.getDescriptorResult with
  | .ok d =>
      ([.getMetricDescriptorRPC { name := desc.name }, .printDescriptor (some d)],
       .ok d)
  | .error e =>
      ([.getMetricDescriptorRPC { name := desc.name }, .printDescriptor none],
       .error e)

/-- The audit-log filter string interpolated into the gcloud invocation. -/
def auditLogFilter : String :=
  "resource.type=\"audited_resource\" resource.labels.service=\"monitoring.googleapis.com\" resource.labels.method=\"google.monitoring.v3.MetricService.CreateMetricDescriptor\" protoPayload.request.metricDescriptor.type=\"" ++ metricType ++ "\""

/-- Embedding of `runMain`: validate the project flag, create the client,
register the descriptor, write the series, print the audit header, sleep,
run gcloud, and re-fetch the descriptor, stopping at the first error and
wrapping it with the step name. -/
def runMain (projectID token : String) (env : Env) :
    List Event × Except String Unit :=
  if projectID = "" then ([], .error ("--project-id is unset"))
  else
    match env.newClientResult with
    | .error e => ([.newMetricClient], .error ("create gcp monitoring client: " ++ e))
    | .ok _ =>
      match createHistogramDescriptor projectID env with
      | (t1, .error e) =>
          (Event.newMetricClient :: t1, .error ("create histogram descriptor: " ++ e))
      | (t1, .ok metricDesc) =>
        match createHistogramTimeSeries projectID token env with
        | (t2, .error e) =>
            (Event.newMetricClient :: t1 ++ t2,
             .error ("create histogram time series: " ++ e))
        | (t2, .ok _) =>
          let t3 := [Event.printAuditHeader, Event.sleepSeconds 5,
                     Event.runGcloud auditLogFilter 2]
          match env.gcloudResult with
          | .error e =>
              (Event.newMetricClient :: t1 ++ t2 ++ t3,
               .error ("read audit logs: " ++ e))
          | .ok _ =>
            match getMetricDescriptor env metricDesc with
            | (t4, .error e) =>
                (Event.newMetricClient :: t1 ++ t2 ++ t3 ++ t4,
                 .error ("get metric descriptor: " ++ e))
            | (t4, .ok _) =>
                (Event.newMetricClient :: t1 ++ t2 ++ t3 ++ t4, .ok ())

/-- Embedding of `main` after flag parsing: run `runMain`; on error log it and
exit 1, otherwise exit 0. Returns the event trace and the process exit code. -/
def mainExit (projectID token : String) (env : Env) : List Event × Nat :=
  match runMain projectID token env with
  | (t, .ok _) => (t, 0)
  | (t, .error e) => (t ++ [.logError e], 1)

/-- An all-success environment for the project `demo` at instant 0, used to
evaluate the embedding at concrete inputs. -/
def demoEnv : Env :=
  { newClientResult := .ok ()
  , createDescriptorResult := .ok (histogramDescriptor "demo")
  , createTimeSeriesResult := .ok ()
  , gcloudResult := .ok ()
  , getDescriptorResult := .ok (histogramDescriptor "demo")
  , now := 0 }

/-- An environment whose get-metric-descriptor RPC fails. -/
def failingGetEnv : Env :=
  { demoEnv with getDescriptorResult := .error ("descriptor not found") }

/-- Modelled from the spec: the monitoring backend's descriptor registry, the
server-side state behind the create/get metric-descriptor RPCs, which is
external to this repository. Per the spec, registration declares the
descriptor to the backend and returns the backend's canonical representation,
and a later fetch-by-name returns the stored descriptor. -/
structure Backend where
  store : List (String × MetricDescriptor)

/-- Modelled from the spec: the backend stores the requested descriptor under
its name and returns its canonical representation. -/
def Backend.createMetricDescriptor (b : Backend) (req : CreateMetricDescriptorRequest) :
    Backend × MetricDescriptor :=
  ({ store := (req.metricDescriptor.name, req.metricDescriptor) :: b.store },
   req.metricDescriptor)

/-- Modelled from the spec: fetch-by-name looks the descriptor up in the
backend's registry. -/
def Backend.getByName (b : Backend) (name : String) : Except String MetricDescriptor :=
  match b.store.lookup name with
  | some d => .ok d
  | none => .error ("metric descriptor not found: " ++ name)

/-- The environment describing one run against backend `b`: the create RPC
returns the backend's canonical descriptor, and the get RPC answers for the
name the program subsequently asks about. -/
def envOfBackend (p : String) (b : Backend) (now : Nat) : Env :=
  { newClientResult := .ok ()
  , createDescriptorResult := .ok (b.createMetricDescriptor (createMetricDescriptorReq p)).2
  , createTimeSeriesResult := .ok ()
  , gcloudResult := .ok ()
  , getDescriptorResult :=
      (b.createMetricDescriptor (createMetricDescriptorReq p)).1.getByName
        (b.createMetricDescriptor (createMetricDescriptorReq p)).2.name
  , now := now }

/-- The series submitted by the writer for resource selection `r`: the base
series with the switch's resource assigned. -/
def writtenSeries (now : Nat) (r : Option MonitoredResource) : TimeSeries :=
  { baseHistogramSeries now with resource := r }

/-- The create-time-series request submitted by the writer. -/
def tsRequest (p : String) (now : Nat) (r : Option MonitoredResource) :
    CreateTimeSeriesRequest :=
  { name := "projects/" ++ p, timeSeries := [writtenSeries now r] }

/-- An environment whose create-metric-descriptor RPC fails. -/
def descFailEnv : Env :=
  { demoEnv with createDescriptorResult := .error ("boom") }

lemma monitoredResourceFor_generic (p : String) :
    monitoredResourceFor "generic_task" p = .ok (some (genericTaskResource p)) := rfl

lemma monitoredResourceFor_k8s (p : String) :
    monitoredResourceFor "k8s_container" p = .ok (some (k8sContainerResource p)) := rfl

lemma monitoredResourceFor_none (p : String) :
    monitoredResourceFor "none" p = .ok none := rfl

lemma writer_trace_of_ok (p token : String) (env : Env) (r : Option MonitoredResource)
    (h : monitoredResourceFor token p = .ok r) :
    (createHistogramTimeSeries p token env).1 =
      [Event.printSeries { baseHistogramSeries env.now with resource := r },
       Event.createTimeSeriesRPC
         { name := "projects/" ++ p
         , timeSeries := [{ baseHistogramSeries env.now with resource := r }] }] := by
  cases hc : env.createTimeSeriesResult <;>
    simp [createHistogramTimeSeries, h, hc]

/-- C1: for every supported monitored-resource token, the single point of the
series constructed by the time-series writer has a bucket-count sequence whose
length is the boundary sequence length plus one (4 = 3 + 1), and its interval
start timestamp equals its interval end timestamp. -/
theorem writer_point_shape (p token : String) (env : Env)
    (h : token = "generic_task" ∨ token = "none" ∨ token = "k8s_container") :
    ∃ s : TimeSeries, Event.printSeries s ∈ (createHistogramTimeSeries p token env).1 ∧
      s.points = [newHistogramPoint env.now] ∧
      (newHistogramPoint env.now).distValue.bucketCounts.length
        = (newHistogramPoint env.now).distValue.bounds.length + 1 ∧
      (newHistogramPoint env.now).distValue.bucketCounts.length = 4 ∧
      (newHistogramPoint env.now).distValue.bounds.length = 3 ∧
      (newHistogramPoint env.now).interval.startTime
        = (newHistogramPoint env.now).interval.endTime := by
  have hpt :
      (newHistogramPoint env.now).distValue.bucketCounts.length
        = (newHistogramPoint env.now).distValue.bounds.length + 1 ∧
      (newHistogramPoint env.now).distValue.bucketCounts.length = 4 ∧
      (newHistogramPoint env.now).distValue.bounds.length = 3 ∧
      (newHistogramPoint env.now).interval.startTime
        = (newHistogramPoint env.now).interval.endTime := by
    simp [newHistogramPoint, Point.distValue]
  rcases h with h | h | h <;> subst h
  · exact ⟨_, by
      rw [writer_trace_of_ok p "generic_task" env _ (monitoredResourceFor_generic p)]
      exact List.mem_cons_self _ _, by simp [baseHistogramSeries], hpt⟩
  · exact ⟨_, by
      rw [writer_trace_of_ok p "none" env _ (monitoredResourceFor_none p)]
      exact List.mem_cons_self _ _, by simp [baseHistogramSeries], hpt⟩
  · exact ⟨_, by
      rw [writer_trace_of_ok p "k8s_container" env _ (monitoredResourceFor_k8s p)]
      exact List.mem_cons_self _ _, by simp [baseHistogramSeries], hpt⟩

/-- Witness for C1 at token `generic_task`, project `demo`, instant 0. -/
theorem writer_point_shape_witness :
    ("generic_task" = "generic_task" ∨ "generic_task" = "none"
      ∨ "generic_task" = "k8s_container") ∧
    (∃ s : TimeSeries,
      Event.printSeries s ∈ (createHistogramTimeSeries "demo" "generic_task" demoEnv).1 ∧
      s.points = [newHistogramPoint demoEnv.now] ∧
      (newHistogramPoint demoEnv.now).distValue.bucketCounts.length
        = (newHistogramPoint demoEnv.now).distValue.bounds.length + 1 ∧
      (newHistogramPoint demoEnv.now).distValue.bucketCounts.length = 4 ∧
      (newHistogramPoint demoEnv.now).distValue.bounds.length = 3 ∧
      (newHistogramPoint demoEnv.now).interval.startTime
        = (newHistogramPoint demoEnv.now).interval.endTime) :=
  ⟨Or.inl rfl, writer_point_shape "demo" "generic_task" demoEnv (Or.inl rfl)⟩

/-- C2: for a token outside the enumeration, the time-series writer returns the
unknown-resource error naming the value, its trace is empty, and in particular
it never issues the create-time-series RPC. -/
theorem writer_unknown_token_fails_fast (p token : String) (env : Env)
    (h1 : token ≠ "generic_task") (h2 : token ≠ "k8s_container") (h3 : token ≠ "none") :
    (createHistogramTimeSeries p token env).2
        = .error ("unknown monitored resource: " ++ token) ∧
    (createHistogramTimeSeries p token env).1 = [] ∧
    (createHistogramTimeSeries p token env).1.countP Event.isCreateTSRPC = 0 := by
  simp [createHistogramTimeSeries, monitoredResourceFor, h1, h2, h3]

/-- Witness for C2 at token `invalid`. -/
theorem writer_unknown_token_fails_fast_witness :
    ("invalid" ≠ "generic_task") ∧ ("invalid" ≠ "k8s_container") ∧ ("invalid" ≠ "none") ∧
    ((createHistogramTimeSeries "demo" "invalid" demoEnv).2
        = .error ("unknown monitored resource: " ++ "invalid") ∧
     (createHistogramTimeSeries "demo" "invalid" demoEnv).1 = [] ∧
     (createHistogramTimeSeries "demo" "invalid" demoEnv).1.countP Event.isCreateTSRPC = 0) :=
  ⟨by decide, by decide, by decide,
   writer_unknown_token_fails_fast "demo" "invalid" demoEnv
     (by decide) (by decide) (by decide)⟩

/-- C4: for a non-empty project identifier, the registration step issues the
create-metric-descriptor request, whose descriptor's type string is exactly the
`metricType` constant and whose monitored-resource-type allow-list contains
both `generic_task` and `k8s_container`. -/
theorem descriptor_request_fields (p : String) (env : Env) (h : p ≠ "") :
    Event.createMetricDescriptorRPC (createMetricDescriptorReq p)
        ∈ (createHistogramDescriptor p env).1 ∧
    (createMetricDescriptorReq p).metricDescriptor.type
        = "custom.googleapis.com/test/histogram" ∧
    "generic_task" ∈ (createMetricDescriptorReq p).metricDescriptor.monitoredResourceTypes ∧
    "k8s_container" ∈ (createMetricDescriptorReq p).metricDescriptor.monitoredResourceTypes := by
  refine ⟨?_, rfl, ?_, ?_⟩
  · cases hd : env.createDescriptorResult <;>
      simp [createHistogramDescriptor, hd]
  · simp [createMetricDescriptorReq, histogramDescriptor]
  · simp [createMetricDescriptorReq, histogramDescriptor]

/-- Witness for C4 at project `demo`. -/
theorem descriptor_request_fields_witness :
    ("demo" ≠ "") ∧
    (Event.createMetricDescriptorRPC (createMetricDescriptorReq "demo")
        ∈ (createHistogramDescriptor "demo" demoEnv).1 ∧
     (createMetricDescriptorReq "demo").metricDescriptor.type
        = "custom.googleapis.com/test/histogram" ∧
     "generic_task" ∈ (createMetricDescriptorReq "demo").metricDescriptor.monitoredResourceTypes ∧
     "k8s_container" ∈ (createMetricDescriptorReq "demo").metricDescriptor.monitoredResourceTypes) :=
  ⟨by decide, descriptor_request_fields "demo" demoEnv (by decide)⟩

/-- C5: with token `none` and a non-empty project identifier, the constructed
series carries no monitored-resource context, and the submitted batch is the
one-element list holding that series, which holds exactly one point. -/
theorem writer_none_single_series (p : String) (env : Env) (h : p ≠ "") :
    ∃ s : TimeSeries,
      (createHistogramTimeSeries p "none" env).1
        = [Event.printSeries s,
           Event.createTimeSeriesRPC { name := "projects/" ++ p, timeSeries := [s] }] ∧
      s.resource = none ∧
      s.points.length = 1 := by
  refine ⟨{ baseHistogramSeries env.now with resource := none }, ?_, rfl, ?_⟩
  · exact writer_trace_of_ok p "none" env none (monitoredResourceFor_none p)
  · simp [baseHistogramSeries]

/-- Witness for C5 at project `demo`. -/
theorem writer_none_single_series_witness :
    ("demo" ≠ "") ∧
    (∃ s : TimeSeries,
      (createHistogramTimeSeries "demo" "none" demoEnv).1
        = [Event.printSeries s,
           Event.createTimeSeriesRPC { name := "projects/" ++ "demo", timeSeries := [s] }] ∧
      s.resource = none ∧
      s.points.length = 1) :=
  ⟨by decide, writer_none_single_series "demo" demoEnv (by decide)⟩

/-- C9: for every supported token, the constructed series is consistent with
the registered descriptor's schema: same metric type (the `metricType`
constant), gauge kind, distribution value type, unit `ms`, and exactly the one
metric label key `key_a` declared in the descriptor's label schema. -/
theorem series_matches_descriptor_schema (p token : String) (env : Env)
    (h : token = "generic_task" ∨ token = "none" ∨ token = "k8s_container") :
    ∃ s : TimeSeries, Event.printSeries s ∈ (createHistogramTimeSeries p token env).1 ∧
      s.metric.type = (histogramDescriptor p).type ∧
      (histogramDescriptor p).type = metricType ∧
      s.metricKind = MetricKind.gauge ∧
      (histogramDescriptor p).metricKind = MetricKind.gauge ∧
      s.valueType = MetricValueType.distribution ∧
      (histogramDescriptor p).valueType = MetricValueType.distribution ∧
      s.unit = "ms" ∧
      (histogramDescriptor p).unit = "ms" ∧
      s.metric.labels.map Prod.fst = ["key_a"] ∧
      (histogramDescriptor p).labels.map LabelDescriptor.key = ["key_a"] := by
  have hschema : ∀ r : Option MonitoredResource,
      ({ baseHistogramSeries env.now with resource := r } : TimeSeries).metric.type
          = (histogramDescriptor p).type ∧
      (histogramDescriptor p).type = metricType ∧
      ({ baseHistogramSeries env.now with resource := r } : TimeSeries).metricKind
          = MetricKind.gauge ∧
      (histogramDescriptor p).metricKind = MetricKind.gauge ∧
      ({ baseHistogramSeries env.now with resource := r } : TimeSeries).valueType
          = MetricValueType.distribution ∧
      (histogramDescriptor p).valueType = MetricValueType.distribution ∧
      ({ baseHistogramSeries env.now with resource := r } : TimeSeries).unit = "ms" ∧
      (histogramDescriptor p).unit = "ms" ∧
      ({ baseHistogramSeries env.now with resource := r } : TimeSeries).metric.labels.map
          Prod.fst = ["key_a"] ∧
      (histogramDescriptor p).labels.map LabelDescriptor.key = ["key_a"] := by
    intro r
    simp [baseHistogramSeries, histogramDescriptor, metricType]
  rcases h with h | h | h <;> subst h
  · exact ⟨_, by
      rw [writer_trace_of_ok p "generic_task" env _ (monitoredResourceFor_generic p)]
      exact List.mem_cons_self _ _, hschema _⟩
  · exact ⟨_, by
      rw [writer_trace_of_ok p "none" env _ (monitoredResourceFor_none p)]
      exact List.mem_cons_self _ _, hschema _⟩
  · exact ⟨_, by
      rw [writer_trace_of_ok p "k8s_container" env _ (monitoredResourceFor_k8s p)]
      exact List.mem_cons_self _ _, hschema _⟩

/-- Witness for C9 at token `none`, project `demo`. -/
theorem series_matches_descriptor_schema_witness :
    ("none" = "generic_task" ∨ "none" = "none" ∨ "none" = "k8s_container") ∧
    (∃ s : TimeSeries,
      Event.printSeries s ∈ (createHistogramTimeSeries "demo" "none" demoEnv).1 ∧
      s.metric.type = (histogramDescriptor "demo").type ∧
      (histogramDescriptor "demo").type = metricType ∧
      s.metricKind = MetricKind.gauge ∧
      (histogramDescriptor "demo").metricKind = MetricKind.gauge ∧
      s.valueType = MetricValueType.distribution ∧
      (histogramDescriptor "demo").valueType = MetricValueType.distribution ∧
      s.unit = "ms" ∧
      (histogramDescriptor "demo").unit = "ms" ∧
      s.metric.labels.map Prod.fst = ["key_a"] ∧
      (histogramDescriptor "demo").labels.map LabelDescriptor.key = ["key_a"]) :=
  ⟨Or.inr (Or.inl rfl),
   series_matches_descriptor_schema "demo" "none" demoEnv (Or.inr (Or.inl rfl))⟩

/-- C10: the descriptor re-fetch step prints the fetch result unconditionally,
and when the RPC fails it prints the nil result after issuing the RPC and only
then propagates the error unchanged. -/
theorem get_descriptor_prints_unconditionally (env : Env) (desc : MetricDescriptor) :
    (getMetricDescriptor env desc).1.countP Event.isPrintDescriptor = 1 ∧
    (∀ e, env.getDescriptorResult = .error e →
      (getMetricDescriptor env desc).1
        = [Event.getMetricDescriptorRPC { name := desc.name },
           Event.printDescriptor none] ∧
      (getMetricDescriptor env desc).2 = .error e) := by
  constructor
  · cases hg : env.getDescriptorResult <;>
      simp [getMetricDescriptor, hg, Event.isPrintDescriptor]
  · intro e hg
    simp [getMetricDescriptor, hg]

/-- Witness for C10 with a failing get RPC. -/
theorem get_descriptor_prints_unconditionally_witness :
    (getMetricDescriptor failingGetEnv (histogramDescriptor "demo")).1.countP
        Event.isPrintDescriptor = 1 ∧
    (getMetricDescriptor failingGetEnv (histogramDescriptor "demo")).1
      = [Event.getMetricDescriptorRPC { name := (histogramDescriptor "demo").name },
         Event.printDescriptor none] ∧
    (getMetricDescriptor failingGetEnv (histogramDescriptor "demo")).2
      = .error ("descriptor not found") :=
  ⟨(get_descriptor_prints_unconditionally failingGetEnv (histogramDescriptor "demo")).1,
   ((get_descriptor_prints_unconditionally failingGetEnv (histogramDescriptor "demo")).2
      ("descriptor not found") rfl).1,
   ((get_descriptor_prints_unconditionally failingGetEnv (histogramDescriptor "demo")).2
      ("descriptor not found") rfl).2⟩

lemma writer_result_of_ok (p token : String) (env : Env) (r : Option MonitoredResource)
    (hmr : monitoredResourceFor token p = .ok r)
    (hcts : env.createTimeSeriesResult = .ok ()) :
    (createHistogramTimeSeries p token env).2 = .ok (writtenSeries env.now r) := by
  simp [createHistogramTimeSeries, hmr, hcts, writtenSeries]

/-- Exhaustive case analysis of a run: the trace and result of `runMain` are
determined by the first failing stage. -/
lemma runMain_shape (p token : String) (env : Env) :
    (p = "" ∧ runMain p token env = ([], .error ("--project-id is unset")))
  ∨ (p ≠ "" ∧ ∃ e, env.newClientResult = .error e ∧
      runMain p token env =
        ([Event.newMetricClient], .error ("create gcp monitoring client: " ++ e)))
  ∨ (p ≠ "" ∧ env.newClientResult = .ok () ∧
      ∃ e, env.createDescriptorResult = .error e ∧
      runMain p token env =
        ([Event.newMetricClient,
          Event.createMetricDescriptorRPC (createMetricDescriptorReq p)],
         .error ("create histogram descriptor: " ++ ("create metric descriptor: " ++ e))))
  ∨ (p ≠ "" ∧ env.newClientResult = .ok () ∧
      ∃ d e, env.createDescriptorResult = .ok d ∧
      monitoredResourceFor token p = .error e ∧
      runMain p token env =
        ([Event.newMetricClient,
          Event.createMetricDescriptorRPC (createMetricDescriptorReq p),
          Event.printDescriptor (some d)],
         .error ("create histogram time series: " ++ e)))
  ∨ (p ≠ "" ∧ env.newClientResult = .ok () ∧
      ∃ d r e, env.createDescriptorResult = .ok d ∧
      monitoredResourceFor token p = .ok r ∧
      env.createTimeSeriesResult = .error e ∧
      runMain p token env =
        ([Event.newMetricClient,
          Event.createMetricDescriptorRPC (createMetricDescriptorReq p),
          Event.printDescriptor (some d),
          Event.printSeries (writtenSeries env.now r),
          Event.createTimeSeriesRPC (tsRequest p env.now r)],
         .error ("create histogram time series: " ++ ("create time series: " ++ e))))
  ∨ (p ≠ "" ∧ env.newClientResult = .ok () ∧
      ∃ d r e, env.createDescriptorResult = .ok d ∧
      monitoredResourceFor token p = .ok r ∧
      env.createTimeSeriesResult = .ok () ∧
      env.gcloudResult = .error e ∧
      runMain p token env =
        ([Event.newMetricClient,
          Event.createMetricDescriptorRPC (createMetricDescriptorReq p),
          Event.printDescriptor (some d),
          Event.printSeries (writtenSeries env.now r),
          Event.createTimeSeriesRPC (tsRequest p env.now r),
          Event.printAuditHeader, Event.sleepSeconds 5,
          Event.runGcloud auditLogFilter 2],
         .error ("read audit logs: " ++ e)))
  ∨ (p ≠ "" ∧ env.newClientResult = .ok () ∧
      ∃ d r e, env.createDescriptorResult = .ok d ∧
      monitoredResourceFor token p = .ok r ∧
      env.createTimeSeriesResult = .ok () ∧
      env.gcloudResult = .ok () ∧
      env.getDescriptorResult = .error e ∧
      runMain p token env =
        ([Event.newMetricClient,
          Event.createMetricDescriptorRPC (createMetricDescriptorReq p),
          Event.printDescriptor (some d),
          Event.printSeries (writtenSeries env.now r),
          Event.createTimeSeriesRPC (tsRequest p env.now r),
          Event.printAuditHeader, Event.sleepSeconds 5,
          Event.runGcloud auditLogFilter 2,
          Event.getMetricDescriptorRPC { name := d.name },
          Event.printDescriptor none],
         .error ("get metric descriptor: " ++ e)))
  ∨ (p ≠ "" ∧ env.newClientResult = .ok () ∧
      ∃ d r d2, env.createDescriptorResult = .ok d ∧
      monitoredResourceFor token p = .ok r ∧
      env.createTimeSeriesResult = .ok () ∧
      env.gcloudResult = .ok () ∧
      env.getDescriptorResult = .ok d2 ∧
      runMain p token env =
        ([Event.newMetricClient,
          Event.createMetricDescriptorRPC (createMetricDescriptorReq p),
          Event.printDescriptor (some d),
          Event.printSeries (writtenSeries env.now r),
          Event.createTimeSeriesRPC (tsRequest p env.now r),
          Event.printAuditHeader, Event.sleepSeconds 5,
          Event.runGcloud auditLogFilter 2,
          Event.getMetricDescriptorRPC { name := d.name },
          Event.printDescriptor (some d2)],
         .ok ())) := by
  by_cases hp : p = ""
  · exact Or.inl ⟨hp, by simp [runMain, hp]⟩
  · right
    cases hnc : env.newClientResult with
    | error e =>
        exact Or.inl ⟨hp, e, rfl, by simp [runMain, hp, hnc]⟩
    | ok u =>
      cases u
      right
      cases hd : env.createDescriptorResult with
      | error e =>
          exact Or.inl ⟨hp, rfl, e, rfl,
            by simp [runMain, createHistogramDescriptor, hp, hnc, hd]⟩
      | ok d =>
        right
        cases hmr : monitoredResourceFor token p with
        | error e =>
            exact Or.inl ⟨hp, rfl, d, e, rfl, rfl,
              by simp [runMain, createHistogramDescriptor, createHistogramTimeSeries,
                       hp, hnc, hd, hmr]⟩
        | ok r =>
          right
          cases hcts : env.createTimeSeriesResult with
          | error e =>
              exact Or.inl ⟨hp, rfl, d, r, e, rfl, rfl, rfl,
                by simp [runMain, createHistogramDescriptor, createHistogramTimeSeries,
                         writtenSeries, tsRequest, hp, hnc, hd, hmr, hcts]⟩
          | ok u2 =>
            cases u2
            right
            cases hg : env.gcloudResult with
            | error e =>
                exact Or.inl ⟨hp, rfl, d, r, e, rfl, rfl, rfl, rfl,
                  by simp [runMain, createHistogramDescriptor, createHistogramTimeSeries,
                           writtenSeries, tsRequest, hp, hnc, hd, hmr, hcts, hg]⟩
            | ok u3 =>
              cases u3
              right
              cases hget : env.getDescriptorResult with
              | error e =>
                  exact Or.inl ⟨hp, rfl, d, r, e, rfl, rfl, rfl, rfl, rfl,
                    by simp [runMain, createHistogramDescriptor, createHistogramTimeSeries,
                             getMetricDescriptor, writtenSeries, tsRequest,
                             hp, hnc, hd, hmr, hcts, hg, hget]⟩
              | ok d2 =>
                  exact Or.inr ⟨hp, rfl, d, r, d2, rfl, rfl, rfl, rfl, rfl,
                    by simp [runMain, createHistogramDescriptor, createHistogramTimeSeries,
                             getMetricDescriptor, writtenSeries, tsRequest,
                             hp, hnc, hd, hmr, hcts, hg, hget]⟩

lemma mainExit_code_cases (p token : String) (env : Env) :
    (mainExit p token env).2 = 0 ∨ (mainExit p token env).2 = 1 := by
  rcases hr : runMain p token env with ⟨t, r⟩
  cases r with
  | ok u => exact Or.inl (by simp [mainExit, hr])
  | error e => exact Or.inr (by simp [mainExit, hr])

lemma mainExit_zero_iff (p token : String) (env : Env) :
    (mainExit p token env).2 = 0 ↔ (runMain p token env).2 = .ok () := by
  rcases hr : runMain p token env with ⟨t, r⟩
  cases r with
  | ok u => cases u; simp [mainExit, hr]
  | error e => simp [mainExit, hr]

lemma runMain_ok_iff (p token : String) (env : Env) :
    (runMain p token env).2 = .ok () ↔
      (p ≠ "" ∧ env.newClientResult = .ok () ∧
       (∃ d, env.createDescriptorResult = .ok d) ∧
       (∃ r, monitoredResourceFor token p = .ok r) ∧
       env.createTimeSeriesResult = .ok () ∧
       env.gcloudResult = .ok () ∧
       (∃ d2, env.getDescriptorResult = .ok d2)) := by
  rcases runMain_shape p token env with
      ⟨hp, h⟩ | ⟨hp, e, hnc, h⟩ | ⟨hp, hnc, e, hd, h⟩ | ⟨hp, hnc, d, e, hd, hmr, h⟩ |
      ⟨hp, hnc, d, r, e, hd, hmr, hcts, h⟩ | ⟨hp, hnc, d, r, e, hd, hmr, hcts, hg, h⟩ |
      ⟨hp, hnc, d, r, e, hd, hmr, hcts, hg, hget, h⟩ |
      ⟨hp, hnc, d, r, d2, hd, hmr, hcts, hg, hget, h⟩
  · subst hp; simp [h]
  · simp [h, hnc]
  · simp [h, hd]
  · simp [h, hmr]
  · simp [h, hcts]
  · simp [h, hg]
  · simp [h, hget]
  · simp [h, hp, hnc, hd, hmr, hcts, hg, hget]

lemma runMain_counts (p token : String) (env : Env) :
    (runMain p token env).1.countP Event.isCreateDescRPC ≤ 1 ∧
    (runMain p token env).1.countP Event.isCreateTSRPC ≤ 1 ∧
    (runMain p token env).1.countP Event.isGcloud ≤ 1 ∧
    (runMain p token env).1.countP Event.isGetDescRPC ≤ 1 := by
  rcases runMain_shape p token env with
      ⟨_, h⟩ | ⟨_, _, _, h⟩ | ⟨_, _, _, _, h⟩ | ⟨_, _, _, _, _, _, h⟩ |
      ⟨_, _, _, _, _, _, _, _, h⟩ | ⟨_, _, _, _, _, _, _, _, _, h⟩ |
      ⟨_, _, _, _, _, _, _, _, _, _, h⟩ | ⟨_, _, _, _, _, _, _, _, _, _, h⟩ <;>
    simp [h, List.countP_cons, List.countP_nil, Event.isCreateDescRPC,
          Event.isCreateTSRPC, Event.isGcloud, Event.isGetDescRPC]

lemma runMain_descError_aborts (p token : String) (env : Env) (e : String)
    (he : env.createDescriptorResult = .error e) :
    (runMain p token env).1.countP Event.isCreateTSRPC = 0 ∧
    (runMain p token env).1.countP Event.isSleep = 0 ∧
    (runMain p token env).1.countP Event.isGcloud = 0 ∧
    (runMain p token env).1.countP Event.isGetDescRPC = 0 := by
  rcases runMain_shape p token env with
      ⟨_, h⟩ | ⟨_, _, _, h⟩ | ⟨_, _, _, _, h⟩ | ⟨_, _, _, _, hd, _, h⟩ |
      ⟨_, _, _, _, _, hd, _, _, h⟩ | ⟨_, _, _, _, _, hd, _, _, _, h⟩ |
      ⟨_, _, _, _, _, hd, _, _, _, _, h⟩ | ⟨_, _, _, _, _, hd, _, _, _, _, h⟩
  · simp [h, List.countP_cons, List.countP_nil, Event.isCreateTSRPC,
          Event.isSleep, Event.isGcloud, Event.isGetDescRPC]
  · simp [h, List.countP_cons, List.countP_nil, Event.isCreateTSRPC,
          Event.isSleep, Event.isGcloud, Event.isGetDescRPC]
  · simp [h, List.countP_cons, List.countP_nil, Event.isCreateTSRPC,
          Event.isSleep, Event.isGcloud, Event.isGetDescRPC]
  · simp [hd] at he
  · simp [hd] at he
  · simp [hd] at he
  · simp [hd] at he
  · simp [hd] at he

lemma runMain_writerError_aborts (p token : String) (env : Env) (e : String)
    (he : (createHistogramTimeSeries p token env).2 = .error e) :
    (runMain p token env).1.countP Event.isSleep = 0 ∧
    (runMain p token env).1.countP Event.isGcloud = 0 ∧
    (runMain p token env).1.countP Event.isGetDescRPC = 0 := by
  rcases runMain_shape p token env with
      ⟨_, h⟩ | ⟨_, _, _, h⟩ | ⟨_, _, _, _, h⟩ | ⟨_, _, _, _, _, _, h⟩ |
      ⟨_, _, _, _, _, _, _, _, h⟩ | ⟨_, _, _, r, _, _, hmr, hcts, _, h⟩ |
      ⟨_, _, _, r, _, _, hmr, hcts, _, _, h⟩ | ⟨_, _, _, r, _, _, hmr, hcts, _, _, h⟩
  · simp [h, List.countP_cons, List.countP_nil, Event.isSleep,
          Event.isGcloud, Event.isGetDescRPC]
  · simp [h, List.countP_cons, List.countP_nil, Event.isSleep,
          Event.isGcloud, Event.isGetDescRPC]
  · simp [h, List.countP_cons, List.countP_nil, Event.isSleep,
          Event.isGcloud, Event.isGetDescRPC]
  · simp [h, List.countP_cons, List.countP_nil, Event.isSleep,
          Event.isGcloud, Event.isGetDescRPC]
  · simp [h, List.countP_cons, List.countP_nil, Event.isSleep,
          Event.isGcloud, Event.isGetDescRPC]
  · simp [writer_result_of_ok p token env r hmr hcts] at he
  · simp [writer_result_of_ok p token env r hmr hcts] at he
  · simp [writer_result_of_ok p token env r hmr hcts] at he

lemma runMain_gcloudError_aborts (p token : String) (env : Env) (e : String)
    (he : env.gcloudResult = .error e) :
    (runMain p token env).1.countP Event.isGetDescRPC = 0 := by
  rcases runMain_shape p token env with
      ⟨_, h⟩ | ⟨_, _, _, h⟩ | ⟨_, _, _, _, h⟩ | ⟨_, _, _, _, _, _, h⟩ |
      ⟨_, _, _, _, _, _, _, _, h⟩ | ⟨_, _, _, _, _, _, _, _, _, h⟩ |
      ⟨_, _, _, _, _, _, _, _, hg, _, h⟩ | ⟨_, _, _, _, _, _, _, _, hg, _, h⟩
  · simp [h, List.countP_cons, List.countP_nil, Event.isGetDescRPC]
  · simp [h, List.countP_cons, List.countP_nil, Event.isGetDescRPC]
  · simp [h, List.countP_cons, List.countP_nil, Event.isGetDescRPC]
  · simp [h, List.countP_cons, List.countP_nil, Event.isGetDescRPC]
  · simp [h, List.countP_cons, List.countP_nil, Event.isGetDescRPC]
  · simp [h, List.countP_cons, List.countP_nil, Event.isGetDescRPC]
  · simp [hg] at he
  · simp [hg] at he

lemma mainExit_error_logs (p token : String) (env : Env) (e : String)
    (he : (runMain p token env).2 = .error e) :
    mainExit p token env = ((runMain p token env).1 ++ [Event.logError e], 1) := by
  rcases hr : runMain p token env with ⟨t, r⟩
  rw [hr] at he
  cases r with
  | ok u => simp at he
  | error e2 =>
      simp at he
      subst he
      simp [mainExit, hr]

/-- C7: the run is a strict linear sequence with no retry: the exit code is 0
or 1; it is 0 exactly when every step succeeds (valid flags and all five
external interactions); each RPC and the subprocess run at most once; a
failure at descriptor registration, at the write step, or at the audit-log
step aborts every subsequent step; and on any error the process logs it and
exits 1. -/
theorem run_linear_sequence (p token : String) (env : Env) :
    ((mainExit p token env).2 = 0 ∨ (mainExit p token env).2 = 1) ∧
    ((mainExit p token env).2 = 0 ↔ (runMain p token env).2 = .ok ()) ∧
    ((runMain p token env).2 = .ok () ↔
      (p ≠ "" ∧ env.newClientResult = .ok () ∧
       (∃ d, env.createDescriptorResult = .ok d) ∧
       (∃ r, monitoredResourceFor token p = .ok r) ∧
       env.createTimeSeriesResult = .ok () ∧
       env.gcloudResult = .ok () ∧
       (∃ d2, env.getDescriptorResult = .ok d2))) ∧
    ((runMain p token env).1.countP Event.isCreateDescRPC ≤ 1 ∧
     (runMain p token env).1.countP Event.isCreateTSRPC ≤ 1 ∧
     (runMain p token env).1.countP Event.isGcloud ≤ 1 ∧
     (runMain p token env).1.countP Event.isGetDescRPC ≤ 1) ∧
    (∀ e, env.createDescriptorResult = .error e →
      (runMain p token env).1.countP Event.isCreateTSRPC = 0 ∧
      (runMain p token env).1.countP Event.isSleep = 0 ∧
      (runMain p token env).1.countP Event.isGcloud = 0 ∧
      (runMain p token env).1.countP Event.isGetDescRPC = 0) ∧
    (∀ e, (createHistogramTimeSeries p token env).2 = .error e →
      (runMain p token env).1.countP Event.isSleep = 0 ∧
      (runMain p token env).1.countP Event.isGcloud = 0 ∧
      (runMain p token env).1.countP Event.isGetDescRPC = 0) ∧
    (∀ e, env.gcloudResult = .error e →
      (runMain p token env).1.countP Event.isGetDescRPC = 0) ∧
    (∀ e, (runMain p token env).2 = .error e →
      mainExit p token env = ((runMain p token env).1 ++ [Event.logError e], 1)) :=
  ⟨mainExit_code_cases p token env,
   mainExit_zero_iff p token env,
   runMain_ok_iff p token env,
   runMain_counts p token env,
   fun e he => runMain_descError_aborts p token env e he,
   fun e he => runMain_writerError_aborts p token env e he,
   fun e he => runMain_gcloudError_aborts p token env e he,
   fun e he => mainExit_error_logs p token env e he⟩

/-- Witness for C7 on a run whose descriptor registration fails: the exit code
is 0 or 1, no step after registration runs, and the error is logged before the
process exits 1. -/
theorem run_linear_sequence_witness :
    ((mainExit "demo" "generic_task" descFailEnv).2 = 0 ∨
     (mainExit "demo" "generic_task" descFailEnv).2 = 1) ∧
    ((runMain "demo" "generic_task" descFailEnv).1.countP Event.isCreateTSRPC = 0 ∧
     (runMain "demo" "generic_task" descFailEnv).1.countP Event.isSleep = 0 ∧
     (runMain "demo" "generic_task" descFailEnv).1.countP Event.isGcloud = 0 ∧
     (runMain "demo" "generic_task" descFailEnv).1.countP Event.isGetDescRPC = 0) ∧
    mainExit "demo" "generic_task" descFailEnv
      = ((runMain "demo" "generic_task" descFailEnv).1
          ++ [Event.logError
                ("create histogram descriptor: create metric descriptor: boom")], 1) :=
  ⟨(run_linear_sequence "demo" "generic_task" descFailEnv).1,
   (run_linear_sequence "demo" "generic_task" descFailEnv).2.2.2.2.1 "boom" rfl,
   (run_linear_sequence "demo" "generic_task" descFailEnv).2.2.2.2.2.2.2
     ("create histogram descriptor: create metric descriptor: boom") rfl⟩

/-- Counterexample to C3 as stated: with project `demo` and the unrecognized
token `invalid`, the run fails with the unrecognized-resource configuration
error, yet the descriptor-registration RPC was already issued — so this
configuration error is not detected before all network activity. -/
theorem config_error_after_network_counterexample :
    (runMain "demo" "invalid" demoEnv).2
      = .error ("create histogram time series: unknown monitored resource: invalid") ∧
    (runMain "demo" "invalid" demoEnv).1.countP Event.isCreateDescRPC = 1 :=
  ⟨rfl, rfl⟩

/-- C3 (amended): a missing project identifier is detected before any network
activity; an unrecognized monitored-resource token is detected at write time —
the run then fails and never issues the create-time-series RPC, though the
descriptor-registration RPC may already have been issued. -/
theorem config_error_detection_amended (p token : String) (env : Env) :
    (p = "" →
      (runMain p token env).1.countP Event.isNetwork = 0 ∧
      (runMain p token env).2 = .error ("--project-id is unset")) ∧
    ((token ≠ "generic_task" ∧ token ≠ "k8s_container" ∧ token ≠ "none") →
      (runMain p token env).1.countP Event.isCreateTSRPC = 0 ∧
      (runMain p token env).2 ≠ .ok ()) := by
  constructor
  · intro hp
    subst hp
    simp [runMain]
  · rintro ⟨h1, h2, h3⟩
    have hmr : monitoredResourceFor token p
        = .error ("unknown monitored resource: " ++ token) := by
      simp [monitoredResourceFor, h1, h2, h3]
    rcases runMain_shape p token env with
        ⟨_, h⟩ | ⟨_, _, _, h⟩ | ⟨_, _, _, _, h⟩ | ⟨_, _, _, _, _, _, h⟩ |
        ⟨_, _, _, _, _, _, hmr2, _, h⟩ | ⟨_, _, _, _, _, _, hmr2, _, _, h⟩ |
        ⟨_, _, _, _, _, _, hmr2, _, _, _, h⟩ | ⟨_, _, _, _, _, _, hmr2, _, _, _, h⟩
    · simp [h, List.countP_cons, List.countP_nil, Event.isCreateTSRPC]
    · simp [h, List.countP_cons, List.countP_nil, Event.isCreateTSRPC]
    · simp [h, List.countP_cons, List.countP_nil, Event.isCreateTSRPC]
    · simp [h, List.countP_cons, List.countP_nil, Event.isCreateTSRPC]
    · simp [hmr] at hmr2
    · simp [hmr] at hmr2
    · simp [hmr] at hmr2
    · simp [hmr] at hmr2

/-- Witness for C3 (amended) at empty project and token `invalid`. -/
theorem config_error_detection_amended_witness :
    ((runMain "" "invalid" demoEnv).1.countP Event.isNetwork = 0 ∧
     (runMain "" "invalid" demoEnv).2 = .error ("--project-id is unset")) ∧
    ((runMain "" "invalid" demoEnv).1.countP Event.isCreateTSRPC = 0 ∧
     (runMain "" "invalid" demoEnv).2 ≠ .ok ()) :=
  ⟨(config_error_detection_amended "" "invalid" demoEnv).1 rfl,
   (config_error_detection_amended "" "invalid" demoEnv).2
     ⟨by decide, by decide, by decide⟩⟩

/-- C6: with an empty project identifier the run fails immediately with the
configuration error, performs no event at all — in particular no client
creation and none of the three RPCs — and the process exits 1. -/
theorem empty_project_no_network (token : String) (env : Env) :
    (runMain "" token env).1 = [] ∧
    (runMain "" token env).1.countP Event.isNetwork = 0 ∧
    (runMain "" token env).2 = .error ("--project-id is unset") ∧
    (mainExit "" token env).2 = 1 := by
  have h : runMain "" token env = ([], .error ("--project-id is unset")) := by
    simp [runMain]
  exact ⟨by simp [h], by simp [h], by simp [h], by simp [mainExit, h]⟩

/-- C8: against the spec-modelled backend registry, the descriptor returned by
registration and the descriptor returned by the subsequent fetch-by-name
report the same type string and the same value kind. -/
theorem descriptor_roundtrip (p : String) (b : Backend) (now : Nat)
    (d d2 : MetricDescriptor)
    (h1 : (createHistogramDescriptor p (envOfBackend p b now)).2 = .ok d)
    (h2 : (getMetricDescriptor (envOfBackend p b now) d).2 = .ok d2) :
    d.type = d2.type ∧ d.valueType = d2.valueType := by
  have henv : (envOfBackend p b now).createDescriptorResult
      = .ok (histogramDescriptor p) := by
    simp [envOfBackend, Backend.createMetricDescriptor, createMetricDescriptorReq]
  have hget : (envOfBackend p b now).getDescriptorResult
      = .ok (histogramDescriptor p) := by
    simp [envOfBackend, Backend.createMetricDescriptor, Backend.getByName,
          createMetricDescriptorReq, List.lookup]
  simp [createHistogramDescriptor, henv] at h1
  simp [getMetricDescriptor, hget] at h2
  subst h1
  subst h2
  exact ⟨rfl, rfl⟩

/-- Witness for C8 at project `demo` against the empty backend registry. -/
theorem descriptor_roundtrip_witness :
    (createHistogramDescriptor "demo" (envOfBackend "demo" { store := [] } 0)).2
        = .ok (histogramDescriptor "demo") ∧
    (getMetricDescriptor (envOfBackend "demo" { store := [] } 0)
        (histogramDescriptor "demo")).2 = .ok (histogramDescriptor "demo") ∧
    ((histogramDescriptor "demo").type = (histogramDescriptor "demo").type ∧
     (histogramDescriptor "demo").valueType = (histogramDescriptor "demo").valueType) :=
  ⟨rfl, rfl,
   descriptor_roundtrip "demo" { store := [] } 0
     (histogramDescriptor "demo") (histogramDescriptor "demo") rfl rfl⟩

end GcpMon
